import Mathlib

/-!
Verification of the chatbot moderation pipeline.

Shallow embedding of the repository's moderation core:
* `moderate_input` embeds `ChatbotModerator.moderate_input`
  (src/moderation/moderator.py): the rule checks for hate speech, PII and
  jailbreak phrases followed by the LLM-classifier verdict parsing, with the
  external classifier call passed in as a function returning `Except`.
* `get_response` embeds `Chatbot.get_response` (src/chatbot/chatbot.py):
  input moderation, generation, output moderation and the history repair on
  the per-session message list.
* The configured pattern lists come from `Config` (src/config.py); the two
  PII regular expressions are embedded as sequences of regex atoms with an
  executable search over character lists mirroring `re.search`.

Python strings are modelled as Lean `String` / `List Char`; Python `in`,
`startswith`, `lower`, `upper`, `strip` and `replace` are given explicit
executable embeddings below.
-/

set_option maxHeartbeats 1000000

namespace ChatbotModeration

/-- Result of a moderation check: the `(is_allowed, moderation_reason)` pair
returned by `ChatbotModerator.moderate_input`. -/
structure Decision where
  allowed : Bool
  reason : String
deriving DecidableEq, Repr

/-! ### Embedding of Python string primitives -/

/-- Python `str.lower` (the source only lowercases ASCII keyword text). -/
def pyLower (s : String) : String := ⟨s.data.map Char.toLower⟩

/-- Python `str.upper`. -/
def pyUpper (s : String) : String := ⟨s.data.map Char.toUpper⟩

/-- Strip leading and trailing whitespace from a character list. -/
def stripList (l : List Char) : List Char :=
  ((l.dropWhile Char.isWhitespace).reverse.dropWhile Char.isWhitespace).reverse

/-- Python `str.strip()`. -/
def pyStrip (s : String) : String := ⟨stripList s.data⟩

/-- Python substring test `needle in hay` on character lists. -/
def containsSub (needle : List Char) : List Char → Bool
  | [] => needle.isEmpty
  | c :: rest => needle.isPrefixOf (c :: rest) || containsSub needle rest

/-- Python `str.replace(pat, rep)` (all occurrences, left to right,
non-overlapping), fuelled by the length of the subject so that the
recursion is structural.  For a non-empty pattern the fuel never runs out. -/
def replaceFuel (pat rep : List Char) : Nat → List Char → List Char
  | 0, s => s
  | _ + 1, [] => []
  | n + 1, c :: rest =>
    if pat.isPrefixOf (c :: rest) then
      rep ++ replaceFuel pat rep n (List.drop (pat.length - 1) rest)
    else
      c :: replaceFuel pat rep n rest

/-- Python `s.replace(pat, rep)`. -/
def pyReplace (s pat rep : String) : String :=
  ⟨replaceFuel pat.data rep.data s.data.length s.data⟩

/-! ### Regular-expression atoms for the PII patterns

The two PII patterns in `Config.MODERATION_KEYWORDS_PII` are plain
concatenations of character classes with `?`, `+`, `{m}` / `{2,}` repetition
and `\b` word boundaries, so a regex is embedded as a list of atoms and
`re.search` as an NFA-style sweep over the subject string. -/

/-- One atom of a linear regular expression. -/
inductive Atom where
  /-- a single character of the class -/
  | cls (p : Char → Bool)
  /-- zero or one character of the class (`?`) -/
  | opt (p : Char → Bool)
  /-- one or more characters of the class (`+`) -/
  | plus (p : Char → Bool)
  /-- zero or more characters of the class (`*`, used for `{2,}` tails) -/
  | star (p : Char → Bool)
  /-- word boundary `\b` -/
  | wb

/-- Python `\w`: ASCII alphanumeric or underscore. -/
def isWordChar (c : Char) : Bool := c.isAlphanum || c = '_'

/-- Word-character test on an optional character (`none` = string edge). -/
def isWordOpt : Option Char → Bool
  | none => false
  | some c => isWordChar c

/-- Word-boundary test between the previous and the next character. -/
def boundaryAt (prev next : Option Char) : Bool := isWordOpt prev != isWordOpt next

/-- All ways an atom sequence can consume exactly one character, given the
word-boundary status `b` at the current position: each option is the class the
next character must satisfy, paired with the atoms remaining afterwards. -/
def options (b : Bool) : List Atom → List ((Char → Bool) × List Atom)
  | [] => []
  | Atom.cls p :: as => [(p, as)]
  | Atom.opt p :: as => (p, as) :: options b as
  | Atom.plus p :: as => [(p, Atom.star p :: as)]
  | Atom.star p :: as => (p, Atom.star p :: as) :: options b as
  | Atom.wb :: as => if b then options b as else []

/-- Can the atom sequence match the empty string at a position whose
word-boundary status is `b`? -/
def nullable (b : Bool) : List Atom → Bool
  | [] => true
  | Atom.cls _ :: _ => false
  | Atom.plus _ :: _ => false
  | Atom.opt p :: as =>
    let _ := p
    nullable b as
  | Atom.star p :: as =>
    let _ := p
    nullable b as
  | Atom.wb :: as => b && nullable b as

/-- NFA sweep for `re.search`: `active` holds the pending states of matches
started at earlier positions, a fresh copy of the whole regex `r` is started
at every position, and the search succeeds as soon as any state is nullable. -/
def runSearch (r : List Atom) : List (List Atom) → Option Char → List Char → Bool
  | active, prev, [] => (r :: active).any (fun as => nullable (boundaryAt prev none) as)
  | active, prev, c :: rest =>
    let act := r :: active
    let b := boundaryAt prev (some c)
    act.any (fun as => nullable b as) ||
      runSearch r
        ((act.flatMap (fun as => options b as)).filterMap
          (fun po => if po.1 c then some po.2 else none))
        (some c) rest

/-- Python `re.search(pattern, text) is not None`. -/
def reSearch (r : List Atom) (s : List Char) : Bool := runSearch r [] none s

/-- `\d` -/
def digitC (c : Char) : Bool := c.isDigit

/-- `[-.\s]` -/
def sepC (c : Char) : Bool := c = '-' || c = '.' || c.isWhitespace

/-- `[a-zA-Z0-9._%+-]` -/
def localC (c : Char) : Bool :=
  c.isAlphanum || c = '.' || c = '_' || c = '%' || c = '+' || c = '-'

/-- `[a-zA-Z0-9.-]` -/
def domainC (c : Char) : Bool := c.isAlphanum || c = '.' || c = '-'

/-- `[a-zA-Z]` -/
def alphaC (c : Char) : Bool := c.isAlpha

/-- The phone-number pattern `\b\d{3}[-.\s]?\d{3}[-.\s]?\d{4}\b`. -/
def phone_regex : List Atom :=
  [Atom.wb,
   Atom.cls digitC, Atom.cls digitC, Atom.cls digitC, Atom.opt sepC,
   Atom.cls digitC, Atom.cls digitC, Atom.cls digitC, Atom.opt sepC,
   Atom.cls digitC, Atom.cls digitC, Atom.cls digitC, Atom.cls digitC,
   Atom.wb]

/-- The email pattern `[a-zA-Z0-9._%+-]+@[a-zA-Z0-9.-]+\.[a-zA-Z]{2,}`. -/
def email_regex : List Atom :=
  [Atom.plus localC, Atom.cls (fun c => c = '@'), Atom.plus domainC,
   Atom.cls (fun c => c = '.'), Atom.cls alphaC, Atom.cls alphaC, Atom.star alphaC]

/-! ### Configuration (src/config.py) -/

namespace Config

/-- `Config.MODERATION_KEYWORDS_HATE_SPEECH`. -/
def MODERATION_KEYWORDS_HATE_SPEECH : List String :=
  ["hate", "kill", "harm", "attack", "racist", "sexist", "violent",
   "nazi", "terrorist", "bomb", "explode", "genocide", "destroy", "murder", "weapon"]

/-- `Config.MODERATION_KEYWORDS_PII`: the two PII regular expressions. -/
def MODERATION_KEYWORDS_PII : List (List Atom) := [phone_regex, email_regex]

/-- `Config.MODERATION_JAILBREAK_PHRASES`. -/
def MODERATION_JAILBREAK_PHRASES : List String :=
  ["ignore previous instructions", "act as if", "override your programming",
   "pretend you are", "hypothetically", "new roleplay", "forbidden knowledge",
   "as a large language model", "developer mode", "do anything now",
   "disregard all prior instructions", "you are no longer an AI",
   "simulate being human", "forget everything you know", "act like a different AI",
   "jailbreak", "unleash your full potential", "execute the following code"]

end Config

/-! ### The moderator (src/moderation/moderator.py) -/

/-- The pattern lists a `ChatbotModerator` instance copies out of `Config`
in `__init__` (`self.hate_speech_keywords`, `self.pii_regexes`,
`self.jailbreak_phrases`). -/
structure ModeratorState where
  hate_speech_keywords : List String
  pii_regexes : List (List Atom)
  jailbreak_phrases : List String

/-- The moderator state produced by `ChatbotModerator.__init__` from `Config`. -/
def defaultModerator : ModeratorState :=
  ⟨Config.MODERATION_KEYWORDS_HATE_SPEECH, Config.MODERATION_KEYWORDS_PII,
   Config.MODERATION_JAILBREAK_PHRASES⟩

/-- `ChatbotModerator._check_for_hate_speech`: case-insensitive keyword
substring search. -/
def check_for_hate_speech (st : ModeratorState) (text : String) : Bool :=
  let text_lower := pyLower text
  st.hate_speech_keywords.any (fun keyword => containsSub keyword.data text_lower.data)

/-- `ChatbotModerator._check_for_pii`: `re.search` of each PII pattern on the
raw text. -/
def check_for_pii (st : ModeratorState) (text : String) : Bool :=
  st.pii_regexes.any (fun pattern => reSearch pattern text.data)

/-- `ChatbotModerator._check_for_jailbreak_attempts`: case-insensitive phrase
substring search. -/
def check_for_jailbreak_attempts (st : ModeratorState) (text : String) : Bool :=
  let text_lower := pyLower text
  st.jailbreak_phrases.any (fun phrase => containsSub phrase.data text_lower.data)

/-- `ChatbotModerator.moderate_input`: the three rule checks in order, then
the LLM classifier.  The classifier invocation is the function `classify`;
`Except.error` is a raised exception of arbitrary type `ε` (caught by the
`try`/`except` in the source, which never lets it propagate), `Except.ok` is
the raw string produced by the chain. -/
def moderate_input {ε : Type} (st : ModeratorState) (classify : String → Except ε String)
    (user_input : String) : Decision :=
  if check_for_hate_speech st user_input then
    ⟨false, "Hate speech detected. Please refrain from using offensive language."⟩
  else if check_for_pii st user_input then
    ⟨false, "Personal identifiable information detected. Please do not share sensitive data."⟩
  else if check_for_jailbreak_attempts st user_input then
    ⟨false, "Jailbreak attempt detected. Please ask legitimate questions."⟩
  else
    match classify user_input with
    | Except.error _ =>
      ⟨false, "An error occurred during moderation. Please try again."⟩
    | Except.ok raw =>
      let moderation_response := pyUpper (pyStrip raw)
      if ("BLOCKED").data.isPrefixOf moderation_response.data then
        let reason := pyStrip (pyReplace moderation_response "BLOCKED:" "")
        ⟨false, "Your request was blocked by the moderation system: " ++ reason ++ "."⟩
      else if containsSub ("SAFE").data moderation_response.data then
        ⟨true, ""⟩
      else
        ⟨false, "An unexpected moderation issue occurred. Please try again or rephrase your request."⟩

/-! ### Conversation history and the turn controller (src/chatbot/chatbot.py,
src/services/memory_manager.py) -/

/-- One message of a session history (`HumanMessage` / `AIMessage`). -/
inductive Msg where
  | human (content : String)
  | ai (content : String)
deriving DecidableEq, Repr

/-- Is this an `AIMessage`?  (`isinstance(m, AIMessage)`.) -/
def Msg.isAI : Msg → Bool
  | Msg.ai _ => true
  | Msg.human _ => false

/-- `session_history.add_user_message(content)`. -/
def add_user_message (content : String) (h : List Msg) : List Msg := h ++ [Msg.human content]

/-- `session_history.add_ai_message(content)`. -/
def add_ai_message (content : String) (h : List Msg) : List Msg := h ++ [Msg.ai content]

/-- `session_history.messages and isinstance(session_history.messages[-1], AIMessage)`. -/
def last_is_ai (h : List Msg) : Bool :=
  match h.getLast? with
  | some m => m.isAI
  | none => false

/-- The guarded pop used by `get_response`: remove the final message exactly
when the history is non-empty and ends with an `AIMessage`
(`if ... : session_history.messages.pop()`); the spec names this operation
`retract_last_assistant_turn`. -/
def retract_last_assistant_turn (h : List Msg) : List Msg :=
  if last_is_ai h then h.dropLast else h

/-- `Chatbot.get_response`.  The per-session history is passed in explicitly
(the source fetches it from `MemoryManager.get_session_history(session_id)`)
and the new history is returned alongside the display string.

Modelled from the spec: the generator invocation
(`self.chain_with_history.invoke`, a `RunnableWithMessageHistory` from an
external library, not part of src/) is the `gen` argument; per spec section 6,
on success it "is responsible for recording the Human and Assistant turns into
ConversationHistory" as a side effect, and on failure (`Except.error`, a
raised exception of arbitrary type `ε2`) it records nothing. -/
def get_response {ε ε2 : Type} (st : ModeratorState) (classify : String → Except ε String)
    (gen : Except ε2 String) (user_input : String) (session_history : List Msg) :
    String × List Msg :=
  let d := moderate_input st classify user_input
  if d.allowed = false then
    let moderation_response_to_user := "🚫 Your input was blocked: " ++ d.reason
    (moderation_response_to_user,
      add_ai_message moderation_response_to_user (add_user_message user_input session_history))
  else
    match gen with
    | Except.ok llm_response =>
      let h1 := add_ai_message llm_response (add_user_message user_input session_history)
      let d2 := moderate_input st classify llm_response
      if d2.allowed = false then
        let moderation_response_to_user :=
          "⚠️ My response was blocked due to policy violation: " ++ d2.reason
        (moderation_response_to_user,
          add_ai_message moderation_response_to_user (retract_last_assistant_turn h1))
      else
        (llm_response, h1)
    | Except.error _ =>
      let llm_response :=
        "I'm sorry, I encountered an issue while processing your request. Please try again."
      (llm_response, add_ai_message llm_response (retract_last_assistant_turn session_history))

/-- Number of Human turns in a history. -/
def countHuman (h : List Msg) : Nat :=
  h.countP (fun m => !m.isAI)

/-- Number of Assistant turns in a history. -/
def countAI (h : List Msg) : Nat :=
  h.countP (fun m => m.isAI)

/-! ### Spec-side definitions -/

/-- The rule layer as the spec describes it (section 4.1/4.3): the categories
are evaluated in the fixed order hate speech, PII, jailbreak; the first match
wins with its canned reason, otherwise the text is allowed with an empty
reason. -/
def specRuleOrderDecision (st : ModeratorState) (text : String) : Decision :=
  if check_for_hate_speech st text then
    ⟨false, "Hate speech detected. Please refrain from using offensive language."⟩
  else if check_for_pii st text then
    ⟨false, "Personal identifiable information detected. Please do not share sensitive data."⟩
  else if check_for_jailbreak_attempts st text then
    ⟨false, "Jailbreak attempt detected. Please ask legitimate questions."⟩
  else
    ⟨true, ""⟩

/-- The rule-based check with the moderator object's state threaded
explicitly: the three `_check_for_*` methods only read `self` and assign
nothing, so the state is returned unchanged. -/
def rules_decision (st : ModeratorState) (text : String) : Decision × ModeratorState :=
  (if check_for_hate_speech st text then
     ⟨false, "Hate speech detected. Please refrain from using offensive language."⟩
   else if check_for_pii st text then
     ⟨false, "Personal identifiable information detected. Please do not share sensitive data."⟩
   else if check_for_jailbreak_attempts st text then
     ⟨false, "Jailbreak attempt detected. Please ask legitimate questions."⟩
   else ⟨true, ""⟩,
   st)

/-! ### Helper lemmas -/

/-- The wrapped classifier block reason is never the empty string. -/
theorem wrapped_reason_ne_empty (r : String) :
    "Your request was blocked by the moderation system: " ++ r ++ "." ≠ "" := by
  intro h
  have hl := congrArg String.length h
  rw [String.length_append, String.length_append] at hl
  have h1 : ("." : String).length = 1 := rfl
  have h2 : ("" : String).length = 0 := rfl
  omega

/-- If `needle.isPrefixOf l` holds then every element of the needle occurs in
`l`. -/
theorem mem_of_isPrefixOf {needle : List Char} :
    ∀ {l : List Char}, needle.isPrefixOf l = true → ∀ x ∈ needle, x ∈ l := by
  induction needle with
  | nil =>
    intro l _ x hx
    cases hx
  | cons d ds ih =>
    intro l hp x hx
    cases l with
    | nil => cases hp
    | cons c rest =>
      rw [List.isPrefixOf, Bool.and_eq_true, beq_iff_eq] at hp
      obtain ⟨rfl, hp2⟩ := hp
      cases hx with
      | head => exact List.mem_cons_self d rest
      | tail _ hx2 => exact List.mem_cons_of_mem d (ih hp2 x hx2)

/-- A needle containing a non-whitespace character is not a substring of an
all-whitespace haystack. -/
theorem containsSub_eq_false_of_ws {needle hay : List Char}
    (hne : ∃ c ∈ needle, c.isWhitespace = false)
    (hws : ∀ c ∈ hay, c.isWhitespace = true) :
    containsSub needle hay = false := by
  induction hay with
  | nil =>
    obtain ⟨c, hc, _⟩ := hne
    cases needle with
    | nil => cases hc
    | cons d ds => rfl
  | cons c rest ih =>
    have hpe : needle.isPrefixOf (c :: rest) = false := by
      cases hpe : needle.isPrefixOf (c :: rest) with
      | false => rfl
      | true =>
        obtain ⟨d, hd, hdw⟩ := hne
        have hdws := hws d (mem_of_isPrefixOf hpe d hd)
        rw [hdws] at hdw
        cases hdw
    have hrest : ∀ d ∈ rest, d.isWhitespace = true :=
      fun d hd => hws d (List.mem_cons_of_mem c hd)
    simp [containsSub, hpe, ih hrest]

/-- Lowercasing a whitespace character leaves it unchanged. -/
theorem toLower_of_ws {c : Char} (h : c.isWhitespace = true) : c.toLower = c := by
  have hc : ((c = ' ' ∨ c = '\t') ∨ c = '\x0d') ∨ c = '\n' := by
    simpa [Char.isWhitespace] using h
  rcases hc with ((hc | hc) | hc) | hc <;> subst hc <;> decide

/-- A whitespace character is not a word character. -/
theorem isWordChar_eq_false_of_ws {c : Char} (h : c.isWhitespace = true) :
    isWordChar c = false := by
  have hc : ((c = ' ' ∨ c = '\t') ∨ c = '\x0d') ∨ c = '\n' := by
    simpa [Char.isWhitespace] using h
  rcases hc with ((hc | hc) | hc) | hc <;> subst hc <;> decide

/-- A whitespace character is not in the email local-part class. -/
theorem localC_eq_false_of_ws {c : Char} (h : c.isWhitespace = true) :
    localC c = false := by
  have hc : ((c = ' ' ∨ c = '\t') ∨ c = '\x0d') ∨ c = '\n' := by
    simpa [Char.isWhitespace] using h
  rcases hc with ((hc | hc) | hc) | hc <;> subst hc <;> decide

/-- Lowercasing preserves an all-whitespace character list. -/
theorem all_ws_map_toLower {l : List Char} (h : ∀ c ∈ l, c.isWhitespace = true) :
    ∀ c ∈ l.map Char.toLower, c.isWhitespace = true := by
  intro c hc
  obtain ⟨d, hd, rfl⟩ := List.mem_map.mp hc
  rw [toLower_of_ws (h d hd)]
  exact h d hd

/-- A regex that is not nullable at a non-boundary and whose one-character
options all reject whitespace finds no match in an all-whitespace string. -/
theorem runSearch_eq_false_of_ws (r : List Atom)
    (h1 : nullable false r = false)
    (h2 : ∀ c : Char, c.isWhitespace = true → ∀ po ∈ options false r, po.1 c = false) :
    ∀ (l : List Char) (prev : Option Char), (∀ c ∈ l, c.isWhitespace = true) →
      isWordOpt prev = false → runSearch r [] prev l = false := by
  intro l
  induction l with
  | nil =>
    intro prev hws hprev
    have hb : boundaryAt prev none = false := by rw [boundaryAt, hprev]; rfl
    simp [runSearch, hb, h1]
  | cons c rest ih =>
    intro prev hws hprev
    have hcw : c.isWhitespace = true := hws c (List.mem_cons_self c rest)
    have hcword : isWordOpt (some c) = false := by
      simp [isWordOpt, isWordChar_eq_false_of_ws hcw]
    have hb : boundaryAt prev (some c) = false := by
      rw [boundaryAt, hprev, hcword]; rfl
    have hstep :
        ((options false r).filterMap
          (fun po => if po.1 c then some po.2 else none)) = [] := by
      rw [List.filterMap_eq_nil_iff]
      intro po hpo
      simp [h2 c hcw po hpo]
    have hrest : ∀ d ∈ rest, d.isWhitespace = true :=
      fun d hd => hws d (List.mem_cons_of_mem c hd)
    simp only [runSearch, hb, h1]
    simp only [List.flatMap_cons, List.flatMap_nil, List.append_nil, hstep]
    simp [h1, ih (some c) hrest hcword]

/-! ### Claim theorems -/

/-- C1: if no rule category matches (so the LLM classifier invocation inside
`moderate_input` actually happens) and that invocation raises any exception,
`moderate_input` returns `allowed = false` with the non-empty generic
moderation-error reason; being a total function it never propagates the
exception, and in particular it never returns `allowed = true` on that
path. -/
theorem moderate_input_fail_closed {ε : Type} (st : ModeratorState)
    (classify : String → Except ε String) (user_input : String) (e : ε)
    (h1 : check_for_hate_speech st user_input = false)
    (h2 : check_for_pii st user_input = false)
    (h3 : check_for_jailbreak_attempts st user_input = false)
    (hc : classify user_input = Except.error e) :
    moderate_input st classify user_input =
      ⟨false, "An error occurred during moderation. Please try again."⟩ ∧
    (moderate_input st classify user_input).reason ≠ "" := by
  have hm : moderate_input st classify user_input =
      ⟨false, "An error occurred during moderation. Please try again."⟩ := by
    simp [moderate_input, h1, h2, h3, hc]
  refine ⟨hm, ?_⟩
  rw [hm]
  decide

/-- Witness for C1 at a concrete allowed-by-rules input whose classifier
invocation raises. -/
theorem moderate_input_fail_closed_witness :
    moderate_input (ε := Unit) defaultModerator (fun _ => Except.error ()) "hello" =
      ⟨false, "An error occurred during moderation. Please try again."⟩ ∧
    (moderate_input (ε := Unit) defaultModerator (fun _ => Except.error ()) "hello").reason ≠ "" :=
  moderate_input_fail_closed defaultModerator (fun _ => Except.error ()) "hello" ()
    (by decide) (by decide) (by decide) rfl

/-- C3: whenever some rule category matches, `moderate_input` returns the
decision of the spec's fixed-priority rule order (hate speech, then PII, then
jailbreak; first match wins with its canned reason), and its result does not
depend on the classifier at all — the LLM classifier is never invoked. -/
theorem moderate_input_rule_order {ε ε2 : Type} (st : ModeratorState)
    (c1 : String → Except ε String) (c2 : String → Except ε2 String) (text : String)
    (h : check_for_hate_speech st text = true ∨ check_for_pii st text = true ∨
         check_for_jailbreak_attempts st text = true) :
    moderate_input st c1 text = specRuleOrderDecision st text ∧
    moderate_input st c1 text = moderate_input st c2 text := by
  rcases h with h | h | h
  · constructor <;> simp [moderate_input, specRuleOrderDecision, h]
  · cases hh : check_for_hate_speech st text <;>
      constructor <;> simp [moderate_input, specRuleOrderDecision, h, hh]
  · cases hh : check_for_hate_speech st text <;>
      cases hp : check_for_pii st text <;>
        constructor <;> simp [moderate_input, specRuleOrderDecision, h, hh, hp]

/-- Witness for C3 at a concrete input matched by the hate-speech rule, with
two classifiers of different behaviour (and even different exception types). -/
theorem moderate_input_rule_order_witness :
    moderate_input (ε := Unit) defaultModerator (fun _ => Except.ok "SAFE") "I hate you" =
      specRuleOrderDecision defaultModerator "I hate you" ∧
    moderate_input (ε := Unit) defaultModerator (fun _ => Except.ok "SAFE") "I hate you" =
      moderate_input (ε := Nat) defaultModerator (fun _ => Except.error 7) "I hate you" :=
  moderate_input_rule_order defaultModerator (fun _ => Except.ok "SAFE")
    (fun _ => Except.error 7) "I hate you" (Or.inl (by decide))

/-- C6: every decision produced by `moderate_input` has an empty reason
exactly when it is allowed. -/
theorem decision_reason_empty_iff_allowed {ε : Type} (st : ModeratorState)
    (classify : String → Except ε String) (text : String) :
    (moderate_input st classify text).allowed = true ↔
    (moderate_input st classify text).reason = "" := by
  cases hh : check_for_hate_speech st text with
  | true =>
    have hm : moderate_input st classify text =
        ⟨false, "Hate speech detected. Please refrain from using offensive language."⟩ := by
      simp [moderate_input, hh]
    rw [hm]; decide
  | false =>
    cases hp : check_for_pii st text with
    | true =>
      have hm : moderate_input st classify text =
          ⟨false, "Personal identifiable information detected. Please do not share sensitive data."⟩ := by
        simp [moderate_input, hh, hp]
      rw [hm]; decide
    | false =>
      cases hj : check_for_jailbreak_attempts st text with
      | true =>
        have hm : moderate_input st classify text =
            ⟨false, "Jailbreak attempt detected. Please ask legitimate questions."⟩ := by
          simp [moderate_input, hh, hp, hj]
        rw [hm]; decide
      | false =>
        cases hc : classify text with
        | error e =>
          have hm : moderate_input st classify text =
              ⟨false, "An error occurred during moderation. Please try again."⟩ := by
            simp [moderate_input, hh, hp, hj, hc]
          rw [hm]; decide
        | ok raw =>
          cases hb : ("BLOCKED").data.isPrefixOf (pyUpper (pyStrip raw)).data with
          | true =>
            have hm : moderate_input st classify text =
                ⟨false, "Your request was blocked by the moderation system: " ++
                  pyStrip (pyReplace (pyUpper (pyStrip raw)) "BLOCKED:" "") ++ "."⟩ := by
              simp [moderate_input, hh, hp, hj, hc, hb]
            rw [hm]
            simp [wrapped_reason_ne_empty]
          | false =>
            cases hs : containsSub ("SAFE").data (pyUpper (pyStrip raw)).data with
            | true =>
              have hm : moderate_input st classify text = ⟨true, ""⟩ := by
                simp [moderate_input, hh, hp, hj, hc, hb, hs]
              rw [hm]; decide
            | false =>
              have hm : moderate_input st classify text =
                  ⟨false, "An unexpected moderation issue occurred. Please try again or rephrase your request."⟩ := by
                simp [moderate_input, hh, hp, hj, hc, hb, hs]
              rw [hm]; decide

/-- C7: when input moderation blocks, `get_response` appends the Human turn
and then the refusal Assistant turn (whose content is the returned string,
prefixed with the input-blocked marker) to the session history, and its
result does not depend on the generator at all — the generator is never
invoked on this path. -/
theorem input_blocked_path {ε ε2 ε3 : Type} (st : ModeratorState)
    (classify : String → Except ε String) (gen : Except ε2 String)
    (gen2 : Except ε3 String) (user_input : String) (h : List Msg)
    (hb : (moderate_input st classify user_input).allowed = false) :
    get_response st classify gen user_input h =
      ("🚫 Your input was blocked: " ++ (moderate_input st classify user_input).reason,
        h ++ [Msg.human user_input,
              Msg.ai ("🚫 Your input was blocked: " ++
                (moderate_input st classify user_input).reason)]) ∧
    get_response st classify gen user_input h = get_response st classify gen2 user_input h := by
  constructor
  · simp [get_response, hb, add_user_message, add_ai_message]
  · simp [get_response, hb]

/-- Witness for C7 at a concrete blocked input and two different generators
(one of which fails). -/
theorem input_blocked_path_witness :
    get_response defaultModerator (fun _ => (Except.ok "SAFE" : Except Unit String))
        ((Except.ok "generated" : Except Unit String)) "I hate you" [Msg.human "a", Msg.ai "b"] =
      ("🚫 Your input was blocked: " ++
          (moderate_input (ε := Unit) defaultModerator (fun _ => Except.ok "SAFE") "I hate you").reason,
        [Msg.human "a", Msg.ai "b"] ++
          [Msg.human "I hate you",
           Msg.ai ("🚫 Your input was blocked: " ++
             (moderate_input (ε := Unit) defaultModerator (fun _ => Except.ok "SAFE") "I hate you").reason)]) ∧
    get_response defaultModerator (fun _ => (Except.ok "SAFE" : Except Unit String))
        ((Except.ok "generated" : Except Unit String)) "I hate you" [Msg.human "a", Msg.ai "b"] =
      get_response defaultModerator (fun _ => (Except.ok "SAFE" : Except Unit String))
        ((Except.error 3 : Except Nat String)) "I hate you" [Msg.human "a", Msg.ai "b"] :=
  input_blocked_path defaultModerator (fun _ => Except.ok "SAFE") (Except.ok "generated")
    (Except.error 3) "I hate you" [Msg.human "a", Msg.ai "b"] (by decide)

/-- C4 counterexample: for the classifier response `"BLOCKED: A BLOCKED: B"`
the claim predicts the reason `"A BLOCKED: B"` (the remainder after stripping
the `BLOCKED` prefix and the following colon, trimmed), but the code computes
the reason with `replace("BLOCKED:", "")` — removing every occurrence — and
wraps it in a fixed sentence, yielding
`"Your request was blocked by the moderation system: A  B."`. -/
theorem classifier_parse_counterexample :
    (moderate_input (ε := Unit) defaultModerator
        (fun _ => Except.ok "BLOCKED: A BLOCKED: B") "x").allowed = false ∧
    (moderate_input (ε := Unit) defaultModerator
        (fun _ => Except.ok "BLOCKED: A BLOCKED: B") "x").reason ≠ "A BLOCKED: B" ∧
    (moderate_input (ε := Unit) defaultModerator
        (fun _ => Except.ok "BLOCKED: A BLOCKED: B") "x").reason =
      "Your request was blocked by the moderation system: A  B." :=
  ⟨by decide, by decide, by decide⟩

/-- C4 (amended): when no rule matches and the classifier returns `raw`, the
decision is computed from the normalized response (trimmed, uppercased): if it
starts with `BLOCKED`, blocked with the reason being the fixed wrapper
sentence around the normalized response with every occurrence of `"BLOCKED:"`
removed and trimmed; otherwise if it contains `SAFE`, allowed with empty
reason; otherwise blocked with the generic unexpected-moderation-response
reason. -/
theorem classifier_parse_amended {ε : Type} (st : ModeratorState)
    (classify : String → Except ε String) (text raw : String)
    (h1 : check_for_hate_speech st text = false)
    (h2 : check_for_pii st text = false)
    (h3 : check_for_jailbreak_attempts st text = false)
    (hc : classify text = Except.ok raw) :
    moderate_input st classify text =
      (if ("BLOCKED").data.isPrefixOf (pyUpper (pyStrip raw)).data then
        ⟨false, "Your request was blocked by the moderation system: " ++
          pyStrip (pyReplace (pyUpper (pyStrip raw)) "BLOCKED:" "") ++ "."⟩
      else if containsSub ("SAFE").data (pyUpper (pyStrip raw)).data then
        ⟨true, ""⟩
      else
        ⟨false, "An unexpected moderation issue occurred. Please try again or rephrase your request."⟩) := by
  simp [moderate_input, h1, h2, h3, hc]

/-- Witness for C4 (amended) at a concrete classifier response. -/
theorem classifier_parse_amended_witness :
    moderate_input (ε := Unit) defaultModerator (fun _ => Except.ok "  blocked: Spam ") "hello" =
      (if ("BLOCKED").data.isPrefixOf (pyUpper (pyStrip "  blocked: Spam ")).data then
        ⟨false, "Your request was blocked by the moderation system: " ++
          pyStrip (pyReplace (pyUpper (pyStrip "  blocked: Spam ")) "BLOCKED:" "") ++ "."⟩
      else if containsSub ("SAFE").data (pyUpper (pyStrip "  blocked: Spam ")).data then
        ⟨true, ""⟩
      else
        ⟨false, "An unexpected moderation issue occurred. Please try again or rephrase your request."⟩) :=
  classifier_parse_amended defaultModerator (fun _ => Except.ok "  blocked: Spam ") "hello"
    "  blocked: Spam " (by decide) (by decide) (by decide) rfl

/-- C5: for any history whose final two turns are a Human turn followed by an
Assistant turn, the repair performed by `get_response` (retract the last
assistant turn, then append the refusal) replaces that Assistant turn by the
refusal: the length is unchanged, all earlier turns, the Human one included,
are untouched, and the last turn is the refusal.  On any history that does not
end with an Assistant turn, the retraction is a no-op. -/
theorem history_repair (pre : List Msg) (h0 raw refusal : String) (other : List Msg)
    (hother : last_is_ai other = false) :
    add_ai_message refusal (retract_last_assistant_turn (pre ++ [Msg.human h0, Msg.ai raw])) =
      pre ++ [Msg.human h0, Msg.ai refusal] ∧
    (add_ai_message refusal
        (retract_last_assistant_turn (pre ++ [Msg.human h0, Msg.ai raw]))).length =
      (pre ++ [Msg.human h0, Msg.ai raw]).length ∧
    retract_last_assistant_turn other = other := by
  have hsplit : pre ++ [Msg.human h0, Msg.ai raw] =
      (pre ++ [Msg.human h0]) ++ [Msg.ai raw] := by simp
  have hlast : last_is_ai (pre ++ [Msg.human h0, Msg.ai raw]) = true := by
    rw [last_is_ai, hsplit, List.getLast?_concat]
    rfl
  have hretract : retract_last_assistant_turn (pre ++ [Msg.human h0, Msg.ai raw]) =
      pre ++ [Msg.human h0] := by
    rw [retract_last_assistant_turn, hlast, if_pos rfl, hsplit, List.dropLast_concat]
  refine ⟨?_, ?_, ?_⟩
  · rw [hretract, add_ai_message]
    simp
  · rw [hretract, add_ai_message]
    simp
  · rw [retract_last_assistant_turn, hother]
    simp

/-- Witness for C5 at a concrete two-turn session plus a concrete history not
ending in an Assistant turn. -/
theorem history_repair_witness :
    add_ai_message "refusal text"
        (retract_last_assistant_turn ([] ++ [Msg.human "hi", Msg.ai "raw unsafe reply"])) =
      [] ++ [Msg.human "hi", Msg.ai "refusal text"] ∧
    (add_ai_message "refusal text"
        (retract_last_assistant_turn ([] ++ [Msg.human "hi", Msg.ai "raw unsafe reply"]))).length =
      ([] ++ [Msg.human "hi", Msg.ai "raw unsafe reply"]).length ∧
    retract_last_assistant_turn [Msg.ai "x", Msg.human "y"] = [Msg.ai "x", Msg.human "y"] :=
  history_repair [] "hi" "raw unsafe reply" "refusal text"
    [Msg.ai "x", Msg.human "y"] (by decide)

/-- C9: the rule-based check is pure and deterministic — with the moderator
state threaded explicitly, a call leaves the state unchanged, and a second
call on the same text with the resulting state yields a decision with the
same `allowed` flag and the same `reason` string. -/
theorem rules_decision_idempotent (st : ModeratorState) (text : String) :
    (rules_decision st text).2 = st ∧
    (rules_decision ((rules_decision st text).2) text).1.allowed =
      (rules_decision st text).1.allowed ∧
    (rules_decision ((rules_decision st text).2) text).1.reason =
      (rules_decision st text).1.reason :=
  ⟨rfl, rfl, rfl⟩

/-- C2: evaluation of `get_response` at a failing input for the
generator-failure terminal path.  With prior history
`[Human "hi", AI "yo"]`, an input that passes moderation and a generator that
raises, the final history is `[Human "hi", AI <error message>]`: no Human turn
was recorded for this interaction (the only Human turn is the previous one),
and the previous interaction's Assistant turn `"yo"` was destroyed —
contradicting the claimed guarantee of exactly one Human and one Assistant
turn for this interaction. -/
theorem generator_failure_loses_human_turn :
    (get_response defaultModerator (fun _ => (Except.ok "SAFE" : Except Unit String))
        ((Except.error () : Except Unit String)) "hello" [Msg.human "hi", Msg.ai "yo"]).2 =
      [Msg.human "hi",
       Msg.ai "I'm sorry, I encountered an issue while processing your request. Please try again."] ∧
    countHuman ((get_response defaultModerator (fun _ => (Except.ok "SAFE" : Except Unit String))
        ((Except.error () : Except Unit String)) "hello" [Msg.human "hi", Msg.ai "yo"]).2) = 1 ∧
    countHuman [Msg.human "hi", Msg.ai "yo"] = 1 :=
  ⟨by decide, by decide, by decide⟩

/-- Retracting the last assistant turn never changes the number of Human
turns. -/
theorem countHuman_retract (h : List Msg) :
    countHuman (retract_last_assistant_turn h) = countHuman h := by
  induction h using List.reverseRecOn with
  | nil => rfl
  | append_singleton as a _ =>
    rw [retract_last_assistant_turn]
    cases hl : last_is_ai (as ++ [a]) with
    | false => simp
    | true =>
      have haAI : a.isAI = true := by
        rw [last_is_ai, List.getLast?_concat] at hl
        exact hl
      simp only [if_pos rfl, List.dropLast_concat]
      simp [countHuman, List.countP_append, List.countP_cons, haAI]

/-- C10: on the generator-failure path (input allowed, generator raises), the
handler of `get_response` pops the last history element exactly when the
history is non-empty and ends with an `AIMessage` (`last_is_ai` is `true`),
appends exactly one AI message whose content is the string returned to the
caller, and never appends a Human message (the Human-turn count is
unchanged). -/
theorem generator_failure_handler {ε ε2 : Type} (st : ModeratorState)
    (classify : String → Except ε String) (e : ε2) (user_input : String) (h : List Msg)
    (hok : (moderate_input st classify user_input).allowed = true) :
    get_response st classify (Except.error e) user_input h =
      ("I'm sorry, I encountered an issue while processing your request. Please try again.",
        add_ai_message
          "I'm sorry, I encountered an issue while processing your request. Please try again."
          (retract_last_assistant_turn h)) ∧
    (last_is_ai h = true → retract_last_assistant_turn h = h.dropLast) ∧
    (last_is_ai h = false → retract_last_assistant_turn h = h) ∧
    countHuman (get_response st classify (Except.error e) user_input h).2 = countHuman h := by
  have hg : get_response st classify (Except.error e) user_input h =
      ("I'm sorry, I encountered an issue while processing your request. Please try again.",
        add_ai_message
          "I'm sorry, I encountered an issue while processing your request. Please try again."
          (retract_last_assistant_turn h)) := by
    simp [get_response, hok]
  refine ⟨hg, ?_, ?_, ?_⟩
  · intro hl
    rw [retract_last_assistant_turn, hl, if_pos rfl]
  · intro hl
    rw [retract_last_assistant_turn, hl]
    simp
  · rw [hg]
    have hadd : countHuman (add_ai_message
        "I'm sorry, I encountered an issue while processing your request. Please try again."
        (retract_last_assistant_turn h)) = countHuman (retract_last_assistant_turn h) := by
      simp [add_ai_message, countHuman, List.countP_append, List.countP_cons, Msg.isAI]
    rw [hadd, countHuman_retract]

/-- Witness for C10 at a concrete allowed input, a failing generator and a
history ending with an AI message. -/
theorem generator_failure_handler_witness :
    get_response defaultModerator (fun _ => (Except.ok "SAFE" : Except Unit String))
        ((Except.error () : Except Unit String)) "hello" [Msg.ai "x"] =
      ("I'm sorry, I encountered an issue while processing your request. Please try again.",
        add_ai_message
          "I'm sorry, I encountered an issue while processing your request. Please try again."
          (retract_last_assistant_turn [Msg.ai "x"])) ∧
    (last_is_ai [Msg.ai "x"] = true →
      retract_last_assistant_turn [Msg.ai "x"] = [Msg.ai "x"].dropLast) ∧
    (last_is_ai [Msg.ai "x"] = false →
      retract_last_assistant_turn [Msg.ai "x"] = [Msg.ai "x"]) ∧
    countHuman (get_response defaultModerator (fun _ => (Except.ok "SAFE" : Except Unit String))
        ((Except.error () : Except Unit String)) "hello" [Msg.ai "x"]).2 = countHuman [Msg.ai "x"] :=
  generator_failure_handler defaultModerator (fun _ => Except.ok "SAFE") () "hello"
    [Msg.ai "x"] (by decide)

/-- C8: an empty or whitespace-only input matches none of the three rule
checks with the configured pattern lists (hate-speech keywords, PII regexes,
jailbreak phrases), so the rule layer treats it as allowed. -/
theorem rule_checks_allow_whitespace_only (s : String)
    (hws : ∀ c ∈ s.data, c.isWhitespace = true) :
    check_for_hate_speech defaultModerator s = false ∧
    check_for_pii defaultModerator s = false ∧
    check_for_jailbreak_attempts defaultModerator s = false ∧
    (rules_decision defaultModerator s).1 = ⟨true, ""⟩ := by
  have hkeysH : ∀ k ∈ Config.MODERATION_KEYWORDS_HATE_SPEECH,
      ∃ c ∈ k.data, c.isWhitespace = false := by decide
  have hkeysJ : ∀ k ∈ Config.MODERATION_JAILBREAK_PHRASES,
      ∃ c ∈ k.data, c.isWhitespace = false := by decide
  have hlower : ∀ c ∈ (pyLower s).data, c.isWhitespace = true :=
    all_ws_map_toLower hws
  have hH : check_for_hate_speech defaultModerator s = false := by
    simp only [check_for_hate_speech]
    rw [List.any_eq_false]
    intro k hk
    rw [containsSub_eq_false_of_ws (hkeysH k hk) hlower]
    simp
  have hP : check_for_pii defaultModerator s = false := by
    simp only [check_for_pii]
    rw [List.any_eq_false]
    intro r hr
    have hr2 : r = phone_regex ∨ r = email_regex := by
      simpa [defaultModerator, Config.MODERATION_KEYWORDS_PII] using hr
    have hsearch : reSearch r s.data = false := by
      rcases hr2 with rfl | rfl
      · refine runSearch_eq_false_of_ws phone_regex rfl ?_ s.data none hws rfl
        intro c hc po hpo
        simp [phone_regex, options] at hpo
      · refine runSearch_eq_false_of_ws email_regex rfl ?_ s.data none hws rfl
        intro c hc po hpo
        simp only [email_regex, options] at hpo
        rcases List.mem_singleton.mp hpo with rfl
        exact localC_eq_false_of_ws hc
    rw [hsearch]
    simp
  have hJ : check_for_jailbreak_attempts defaultModerator s = false := by
    simp only [check_for_jailbreak_attempts]
    rw [List.any_eq_false]
    intro k hk
    rw [containsSub_eq_false_of_ws (hkeysJ k hk) hlower]
    simp
  refine ⟨hH, hP, hJ, ?_⟩
  simp [rules_decision, hH, hP, hJ]

/-- Witness for C8 at a concrete whitespace-only input. -/
theorem rule_checks_allow_whitespace_only_witness :
    check_for_hate_speech defaultModerator "  " = false ∧
    check_for_pii defaultModerator "  " = false ∧
    check_for_jailbreak_attempts defaultModerator "  " = false ∧
    (rules_decision defaultModerator "  ").1 = ⟨true, ""⟩ :=
  rule_checks_allow_whitespace_only "  " (by decide)

end ChatbotModeration
